import Mathlib

/-!
Verification development for the 3DRP add-on repository.

The development shallowly embeds the two Python source files:

* `run.py` — the MQTT telemetry ingestor: registration check against the
  home-automation platform (`is_device_registered`), the control responder
  (`check_and_respond_control`), the discovery clear/announce/beacon cycle
  (`clear_and_rediscover`, `delayed_online_publish`) and the message entry
  point (`on_message`).
* `3drp_show.py` — the entity aggregation query endpoint (`devices_view`
  with its helpers `_match_suffix`, device-label derivation, grouping,
  sorting and truncation, and the error boundary).

Machine strings are modelled as Lean `String`, manipulated through
structural helpers over `String.data` (`List Char`) so that every
definition evaluates by kernel reduction.  JSON payloads are modelled by
the inductive `Json` (null / string / integer / object); Python `dict`
values are insertion-ordered association lists with unique keys, and
`dict.get` / `dict` assignment are embedded by `dictGet` / `dictSet`.
Network effects are modelled by passing the platform's response (or the
bulk-fetch outcome) as an explicit argument; exceptions are modelled by
`Except` / explicit error constructors.
-/

/-- JSON values as decoded by `json.loads`: we model the shapes the add-on
actually exchanges — null, strings, integers and objects.  Object fields
are an insertion-ordered association list (Python `dict`). -/
inductive Json where
  | null : Json
  | str (s : String) : Json
  | num (n : Int) : Json
  | obj (fields : List (String × Json)) : Json

/-- Lookup in a Python `dict` modelled as an insertion-ordered association
list: the first binding of the key wins (keys are unique in a `dict`). -/
def dictGet {α : Type} : List (String × α) → String → Option α
  | [], _ => none
  | (k, v) :: rest, key => if k = key then some v else dictGet rest key

/-- Python `dict` assignment `d[k] = v`: update in place if the key is
present (keeping its position), otherwise append the new binding. -/
def dictSet {α : Type} : List (String × α) → String → α → List (String × α)
  | [], key, v => [(key, v)]
  | (k, w) :: rest, key, v =>
      if k = key then (k, v) :: rest else (k, w) :: dictSet rest key v

/-- `message_json.get(k)`: `None` when the value is not an object or the
key is absent. -/
def jGet : Json → String → Option Json
  | .obj fields, k => dictGet fields k
  | _, _ => none

/-- Python truthiness of a JSON value (`if not x` tests). -/
def pyTruthy : Json → Bool
  | .null => false
  | .str s => s ≠ ""
  | .num n => n ≠ 0
  | .obj fields => !fields.isEmpty

/-- Python `str()` of a JSON value.  `str(None) = "None"`; rendering of a
dict value is not modelled (no claim involves a dict-valued fingerprint),
we map it to the empty string. -/
def pyStr : Json → String
  | .null => "None"
  | .str s => s
  | .num n => toString n
  | .obj _ => ""

/-- `str(x)` for an optional JSON field (`response.json().get("state")`). -/
def pyStrOpt : Option String → String
  | none => "None"
  | some s => s

/-- Python `s.split(sep)` on a character list (no maxsplit):
`"" → [""]`, `"/" → ["", ""]`, `"a/b" → ["a", "b"]`. -/
def splitChars (sep : Char) : List Char → List (List Char)
  | [] => [[]]
  | c :: rest =>
      let r := splitChars sep rest
      if c = sep then [] :: r
      else
        match r with
        | [] => [[c]]
        | h :: t => (c :: h) :: t

/-- Python `s.split(sep)` for single-character separators. -/
def pySplit (s : String) (sep : Char) : List String :=
  (splitChars sep s.data).map String.mk

/-- Python `s.endswith(t)`: `t` is a suffix of `s` (always true for `t = ""`). -/
def pyEndsWith (s t : String) : Bool :=
  t.data.length ≤ s.data.length &&
    s.data.drop (s.data.length - t.data.length) == t.data

/-- Python `s.startswith(t)`. -/
def pyStartsWith (s t : String) : Bool :=
  t.data.isPrefixOf s.data

/-- Substring search: does `needle` occur as a contiguous run in `hay`? -/
def listIsInfix (needle : List Char) : List Char → Bool
  | [] => needle.isEmpty
  | c :: rest => needle.isPrefixOf (c :: rest) || listIsInfix needle rest

/-- Python `needle in hay` on strings (substring containment). -/
def pyContains (hay needle : String) : Bool :=
  listIsInfix needle.data hay.data

/-- Python `s.lower()` (ASCII case folding, as used by the query filter). -/
def pyLower (s : String) : String :=
  ⟨s.data.map Char.toLower⟩

/-- Python slicing `s[:-k]` for `k > 0` (clamped at the empty string). -/
def pyDropRight (s : String) (k : Nat) : String :=
  ⟨s.data.take (s.data.length - k)⟩

/-- Python `s[:n]` for `n ≥ 0`. -/
def pyTake (s : String) (n : Nat) : String :=
  ⟨s.data.take n⟩

/-- Python `s.rstrip("_")`: remove every trailing underscore. -/
def pyRstripUnderscore (s : String) : String :=
  ⟨(s.data.reverse.dropWhile (fun c => c = '_')).reverse⟩

/-- Python `s.strip()`: trim whitespace on both ends. -/
def pyStrip (s : String) : String :=
  ⟨((s.data.dropWhile Char.isWhitespace).reverse.dropWhile Char.isWhitespace).reverse⟩

/-- Value of a digit list, most significant first. -/
def digitsToNat : List Char → Nat
  | [] => 0
  | c :: rest => List.foldl (fun acc d => acc * 10 + (d.val.toNat - 48)) (c.val.toNat - 48) rest

/-- Python `int(s)`: optional surrounding whitespace, optional sign, at
least one digit; anything else raises `ValueError` (modelled as `none`). -/
def pyParseInt (s : String) : Option Int :=
  let t := ((s.data.dropWhile Char.isWhitespace).reverse.dropWhile Char.isWhitespace).reverse
  match t with
  | '+' :: ds => if ds ≠ [] ∧ ds.all Char.isDigit then some (digitsToNat ds) else none
  | '-' :: ds => if ds ≠ [] ∧ ds.all Char.isDigit then some (-(digitsToNat ds : Int)) else none
  | ds => if ds ≠ [] ∧ ds.all Char.isDigit then some (digitsToNat ds) else none

/-! ## Embedding of `run.py` -/

/-- Result of the platform state query `GET /states/<entity_id>`:
either a raised network/timeout exception, or a response with an HTTP
status code and the JSON body's `state` field. -/
inductive HAQueryResult where
  | exn : HAQueryResult
  | resp (status : Nat) (state : Option String) : HAQueryResult

/-- The entity conventionally holding a device's schema fingerprint. -/
def fvEntityId (device_name device_mac : String) : String :=
  "sensor." ++ device_name ++ "_" ++ device_mac ++ "_FormatVersion"

/-- `is_device_registered` from `run.py`: query the platform for the
`FormatVersion` entity; non-200 status or a raised exception means
unregistered, otherwise compare `str(state)` with `str(format_version)`
(the `str()` of the fingerprint is applied by the caller). -/
def is_device_registered (platform : String → HAQueryResult)
    (device_name device_mac format_version : String) : Bool :=
  match platform (fvEntityId device_name device_mac) with
  | .exn => false
  | .resp status state =>
      if status ≠ 200 then false
      else pyStrOpt state == format_version

/-- The sensing-unit table `unit_conditions` from `run.py`. -/
def unit_conditions : List (String × String) :=
  [("ct", "°C"), ("t", "°C"), ("ch", "%"), ("h", "%"),
   ("p1", "µg/m³"), ("p25", "µg/m³"), ("p10", "µg/m³"),
   ("v", "ppm"), ("c", "ppm"), ("ec", "ppm"),
   ("rset", "rpm"), ("rpm", "rpm")]

/-- The `device` metadata block of a discovery config. -/
structure DeviceBlock where
  identifiers : String
  name : String
  model : String
  manufacturer : String
  sw_version : String
deriving DecidableEq, Repr

/-- A discovery config dictionary, as built by
`generate_mqtt_discovery_config` / `generate_mqtt_discovery_textconfig`.
Optional dictionary keys are modelled by `Option` (`none` = key absent);
`force_update` is `true` exactly when the key is present (numeric kind). -/
structure DiscoveryConfig where
  name : String
  state_topic : String
  availability_topic : String
  payload_available : String
  payload_not_available : String
  value_template : String
  unique_id : String
  state_class : Option String
  force_update : Bool
  device : DeviceBlock
  unit_of_measurement : Option String
deriving DecidableEq, Repr

/-- `generate_mqtt_discovery_config` (numeric sensors) from `run.py`. -/
def generate_mqtt_discovery_config (ADDON_VERSION device_name device_mac sensor_type sensor_name :
    String) : DiscoveryConfig :=
  let topic := device_name ++ "/" ++ device_mac ++ "/data"
  { name := sensor_name
    state_topic := topic
    availability_topic := device_name ++ "/" ++ device_mac ++ "/status"
    payload_available := "online"
    payload_not_available := "offline"
    value_template := "\x7b\x7b value_json." ++ sensor_type ++ "." ++ sensor_name ++ " \x7d\x7d"
    unique_id := device_name ++ "_" ++ device_mac ++ "_" ++ sensor_name
    state_class := some "measurement"
    force_update := true
    device :=
      { identifiers := device_name ++ "_" ++ device_mac
        name := device_name ++ "_" ++ device_mac
        model := device_name
        manufacturer := device_name
        sw_version := ADDON_VERSION }
    unit_of_measurement := dictGet unit_conditions sensor_name }

/-- `generate_mqtt_discovery_textconfig` (text sensors) from `run.py`:
same dictionary without `state_class` and `force_update`. -/
def generate_mqtt_discovery_textconfig (ADDON_VERSION device_name device_mac sensor_type
    sensor_name : String) : DiscoveryConfig :=
  let topic := device_name ++ "/" ++ device_mac ++ "/data"
  { name := sensor_name
    state_topic := topic
    availability_topic := device_name ++ "/" ++ device_mac ++ "/status"
    payload_available := "online"
    payload_not_available := "offline"
    value_template := "\x7b\x7b value_json." ++ sensor_type ++ "." ++ sensor_name ++ " \x7d\x7d"
    unique_id := device_name ++ "_" ++ device_mac ++ "_" ++ sensor_name
    state_class := none
    force_update := false
    device :=
      { identifiers := device_name ++ "_" ++ device_mac
        name := device_name ++ "_" ++ device_mac
        model := device_name
        manufacturer := device_name
        sw_version := ADDON_VERSION }
    unit_of_measurement := dictGet unit_conditions sensor_name }

/-- Payload of an MQTT publish, by kind: the empty clearing payload, a
serialized discovery config (`json.dumps(cfg, indent=2)`), the literal
`"online"` beacon, or a literal command string. -/
inductive Payload where
  | empty : Payload
  | config (cfg : DiscoveryConfig) : Payload
  | online : Payload
  | command (body : String) : Payload
deriving DecidableEq, Repr

/-- One `client.publish(topic, payload, retain)` call, in emission order. -/
structure Publish where
  topic : String
  payload : Payload
  retain : Bool
deriving DecidableEq, Repr

/-- The discovery-config topic for one sensor of one device. -/
def discoveryTopic (device_name device_mac sensor_name : String) : String :=
  "homeassistant/sensor/" ++ device_name ++ "_" ++ device_mac ++ "_" ++ sensor_name ++ "/config"

/-- The clear-publish for one sensor: empty retained payload on its
discovery-config topic. -/
def clearPub (device_name device_mac sensor_name : String) : Publish :=
  ⟨discoveryTopic device_name device_mac sensor_name, .empty, true⟩

/-- The per-device status topic. -/
def statusTopic (device_name device_mac : String) : String :=
  device_name ++ "/" ++ device_mac ++ "/status"

/-- The `"online"` availability beacon: non-retained publish to the
device's status topic. -/
def onlineBeacon (device_name device_mac : String) : Publish :=
  ⟨statusTopic device_name device_mac, .online, false⟩

/-- `delayed_online_publish` from `run.py`: after a short sleep, publish
one non-retained `"online"` beacon to the device status topic. -/
def delayed_online_publish (device_name device_mac : String) : List Publish :=
  [onlineBeacon device_name device_mac]

/-- `message_json.get(k, {}) or {}` followed by use as a dict: absent or
falsy values become the empty dict; a truthy non-object raises
`AttributeError` at the first `.keys()` / `.get` call (`none` here). -/
def sectionDict (message_json : Json) (key : String) : Option (List (String × Json)) :=
  let v := (jGet message_json key).getD (.obj [])
  let v := if pyTruthy v then v else .obj []
  match v with
  | .obj fields => some fields
  | _ => none

/-- The announce-publish of one discovery config: the serialized config,
retained, on the sensor's discovery-config topic (keyed by `cfg["name"]`). -/
def annPub (device_name device_mac : String) (cfg : DiscoveryConfig) : Publish :=
  ⟨discoveryTopic device_name device_mac cfg.name, .config cfg, true⟩

/-- The `discovery_configs` list built by `clear_and_rediscover`: numeric
configs for the `data` section, then text configs for `textdata`. -/
def discovery_configs_of (ADDON_VERSION device_name device_mac : String)
    (data_sensors text_sensors : List (String × Json)) : List DiscoveryConfig :=
  data_sensors.map (fun p =>
    generate_mqtt_discovery_config ADDON_VERSION device_name device_mac "data" p.1)
  ++ text_sensors.map (fun p =>
    generate_mqtt_discovery_textconfig ADDON_VERSION device_name device_mac "textdata" p.1)

/-- `clear_and_rediscover` from `run.py`, as the ordered list of publishes
it emits: collect the sensor names of the `data` and `textdata` sections,
publish a retained empty payload to every sensor's discovery topic, then
(after a bounded wait) publish every freshly generated discovery config
retained, then emit the delayed online beacon.  It runs on a daemon
thread, so an `AttributeError` on a truthy non-object section kills the
cycle before any publish (empty trace). -/
def clear_and_rediscover (ADDON_VERSION device_name device_mac : String)
    (message_json : Json) : List Publish :=
  match sectionDict message_json "data", sectionDict message_json "textdata" with
  | some data_sensors, some text_sensors =>
      (data_sensors.map Prod.fst ++ text_sensors.map Prod.fst).map
          (clearPub device_name device_mac)
        ++ (discovery_configs_of ADDON_VERSION device_name device_mac
              data_sensors text_sensors).map (annPub device_name device_mac)
        ++ delayed_online_publish device_name device_mac
  | _, _ => []

/-- The sensor-name list `sensors_to_register` collected by
`clear_and_rediscover` (names of the `data` then `textdata` sections). -/
def sensors_to_register (message_json : Json) : List String :=
  ((sectionDict message_json "data").getD []).map Prod.fst
    ++ ((sectionDict message_json "textdata").getD []).map Prod.fst

/-- `message_json.get(k) is not None`: the key is present with a
non-null value. -/
def getIsNotNone (message_json : Json) (key : String) : Bool :=
  match jGet message_json key with
  | some .null => false
  | some _ => true
  | none => false

/-- The `has_required_payload` test of `check_and_respond_control`. -/
def has_required_payload (message_json : Json) : Bool :=
  getIsNotNone message_json "Heartbeat" || getIsNotNone message_json "MODEL"

/-- The fixed command payload `json.dumps({"Update": "1"})`. -/
def updateCommandBody : String := "\x7b\"Update\": \"1\"\x7d"

/-- The control publish sent to a device's control topic. -/
def controlPub (device_name device_mac : String) : Publish :=
  ⟨device_name ++ "/" ++ device_mac ++ "/control", .command updateCommandBody, false⟩

/-- `check_and_respond_control` from `run.py`: fewer than three topic
segments returns silently; exactly three unpack and publish the update
command iff a liveness marker is present; more than three segments make
the three-way unpack raise `ValueError`. -/
def check_and_respond_control (topic : String) (message_json : Json) :
    Except Unit (List Publish) :=
  let parts := pySplit topic '/'
  if parts.length < 3 then .ok []
  else if parts.length = 3 then
    let device_name := parts.getD 0 ""
    let device_mac := parts.getD 1 ""
    if has_required_payload message_json then
      .ok [controlPub device_name device_mac]
    else .ok []
  else .error ()

/-- Observable outcome of one `on_message` call: the control publishes
emitted, whether the registration check was consulted, whether a
discovery cycle was dispatched to a worker thread, and whether the
message-level exception handler absorbed an error. -/
structure MsgOutcome where
  control_pubs : List Publish
  registration_checked : Bool
  discovery_dispatched : Bool
  errored : Bool
deriving DecidableEq, Repr

/-- The part of `on_message` after the control responder succeeded with
publishes `pubs`: extract identity and fingerprint, then decide whether
to dispatch a discovery cycle. -/
def on_message_rest (platform : String → HAQueryResult) (topic : String)
    (message_json : Json) (pubs : List Publish) : MsgOutcome :=
  let topic_parts := pySplit topic '/'
  if topic_parts.length < 3 then ⟨pubs, false, false, false⟩
  else
    let device_name := topic_parts.getD 0 ""
    let device_mac := topic_parts.getD 1 ""
    let textdataVal := (jGet message_json "textdata").getD (.obj [])
    let textdataVal := if pyTruthy textdataVal then textdataVal else .obj []
    match textdataVal with
    | .obj textdata =>
        let format_version := dictGet textdata "FormatVersion"
        if device_name = "" ∨ device_mac = "" then ⟨pubs, false, false, false⟩
        else
          match format_version with
          | none => ⟨pubs, false, false, false⟩
          | some fv =>
              if ¬ pyTruthy fv then ⟨pubs, false, false, false⟩
              else if is_device_registered platform device_name device_mac (pyStr fv) then
                ⟨pubs, true, false, false⟩
              else ⟨pubs, true, true, false⟩
    | _ => ⟨pubs, false, false, true⟩

/-- `on_message` from `run.py`.  `payload = none` models a payload that
fails JSON decoding.  A raised `ValueError` in the control responder is
absorbed by the message-level `except` handler, aborting the message. -/
def on_message (platform : String → HAQueryResult) (topic : String)
    (payload : Option Json) : MsgOutcome :=
  match payload with
  | none => ⟨[], false, false, true⟩
  | some message_json =>
      match check_and_respond_control topic message_json with
      | .error _ => ⟨[], false, false, true⟩
      | .ok pubs => on_message_rest platform topic message_json pubs

/-! ## Embedding of `3drp_show.py` -/

/-- One entry of the bulk `/api/states` snapshot, with the fields
`devices_view` reads.  `friendly_name` is the already-defaulted
`s.get("attributes", {}).get("friendly_name") or ""`. -/
structure EntityState where
  entity_id : String
  friendly_name : String
  state : Option String
  last_updated : Option String
deriving DecidableEq, Repr

/-- One metrics cell of the aggregated output:
`{"value": ..., "last_updated": ...}`. -/
structure MetricVal where
  value : Option String
  last_updated : Option String
deriving DecidableEq, Repr

/-- One aggregated device record: label plus insertion-ordered metrics
map keyed by the matched suffix token. -/
structure DeviceRecord where
  device_id : String
  metrics : List (String × MetricVal)
deriving DecidableEq, Repr

/-- `_match_suffix` from `3drp_show.py`: scan the suffix list in order,
skipping empty candidates; for each candidate `s` test
`entity_id.endswith("_" + s)` then `entity_id.endswith(s)`; the first
candidate that matches wins, returning `(matched_suffix, trailing)`. -/
def _match_suffix (entity_id : String) : List String → Option (String × String)
  | [] => none
  | s :: rest =>
      if s = "" then _match_suffix entity_id rest
      else if pyEndsWith entity_id ("_" ++ s) then some (s, "_" ++ s)
      else if pyEndsWith entity_id s then some (s, s)
      else _match_suffix entity_id rest

/-- `eid.split(".", 1)[1] if "." in eid else eid`: drop the domain
segment up to and including the first dot. -/
def stripDomain (eid : String) : String :=
  if eid.data.contains '.' then ⟨(eid.data.dropWhile (fun c => c ≠ '.')).tail⟩ else eid

/-- The device-label derivation of `devices_view`: strip the domain, cut
`len(trailing)` characters off the tail (`base[:-len(trailing)]`, clamped
like a Python slice), then `rstrip("_")`. -/
def deviceLabelOf (eid trailing : String) : String :=
  let base := stripDomain eid
  let base_wo_suffix := if trailing ≠ "" then pyDropRight base trailing.data.length else base
  pyRstripUnderscore base_wo_suffix

/-- One iteration of the `for s in states` loop of `devices_view`:
apply the prefix, keyword and suffix filters, derive the device label,
and record the metric under the matched suffix (last write wins). -/
def deviceStep (query pre : String) (suffixes : List String)
    (devices_map : List (String × DeviceRecord)) (s : EntityState) :
    List (String × DeviceRecord) :=
  let eid := s.entity_id
  if pre ≠ "" ∧ ¬ pyStartsWith eid pre then devices_map
  else if query ≠ "" ∧
      ¬ (pyContains (pyLower eid) (pyLower query)
          || pyContains (pyLower s.friendly_name) (pyLower query)) then devices_map
  else
    match _match_suffix eid suffixes with
    | none => devices_map
    | some (matched_suffix, trailing) =>
        let device_label := deviceLabelOf eid trailing
        let row := (dictGet devices_map device_label).getD ⟨device_label, []⟩
        dictSet devices_map device_label
          { row with metrics := dictSet row.metrics matched_suffix ⟨s.state, s.last_updated⟩ }

/-- Lexicographic comparison of character lists by code point, exactly
Python's `<` on `str` extended to `≤` (which `list.sort` realises). -/
def lexLe : List Char → List Char → Bool
  | [], _ => true
  | _ :: _, [] => false
  | a :: as, b :: bs =>
      if a.val.toNat < b.val.toNat then true
      else if b.val.toNat < a.val.toNat then false
      else lexLe as bs

/-- Key comparison used by `devices_list.sort(key=lambda d: d["device_id"])`. -/
def devLe (a b : DeviceRecord) : Prop :=
  lexLe a.device_id.data b.device_id.data = true

instance : DecidableRel devLe := fun a b =>
  inferInstanceAs (Decidable (lexLe a.device_id.data b.device_id.data = true))

/-- Insert a device record into a label-sorted list (stable: an incoming
record goes in front of later records with an equal label, which matches
a stable sort inserting earlier snapshot entries last). -/
def orderedInsertDev (x : DeviceRecord) : List DeviceRecord → List DeviceRecord
  | [] => [x]
  | y :: l =>
      if lexLe x.device_id.data y.device_id.data then x :: y :: l
      else y :: orderedInsertDev x l

/-- `devices_list.sort(key=lambda d: d["device_id"])`: a stable sort by
label; on lists (stable sorting being deterministic) this insertion sort
computes the same list as Python's Timsort. -/
def sortDevices : List DeviceRecord → List DeviceRecord
  | [] => []
  | x :: l => orderedInsertDev x (sortDevices l)

/-- Python `lst[:limit]` for an `int` limit (negative limits cut from the
end, as Python slices do). -/
def pyListTake {α : Type} (l : List α) (limit : Int) : List α :=
  if limit < 0 then l.take (l.length - limit.natAbs) else l.take limit.toNat

/-- The truncation step of `devices_view`:
`if limit and len(devices_list) > limit: devices_list = devices_list[:limit]`. -/
def truncateDevices (l : List DeviceRecord) (limit : Int) : List DeviceRecord :=
  if limit ≠ 0 ∧ (l.length : Int) > limit then pyListTake l limit else l

/-- The successful body of `devices_view`: fold the snapshot through the
filters into the grouping map, take the records, sort them by label and
truncate to the device cap. -/
def devicesResult (states : List EntityState) (query pre : String)
    (suffixes : List String) (limit : Int) : List DeviceRecord :=
  let devices_map := states.foldl (deviceStep query pre suffixes) []
  let devices_list := devices_map.map Prod.snd
  truncateDevices (sortDevices devices_list) limit

/-- Outcome of the bulk `_get_all_states` fetch: a decoded snapshot, a
non-success status (`raise_for_status` → `requests.HTTPError` carrying
the status and body), or any other raised exception (connection error,
timeout, missing token), which is **not** an `HTTPError`. -/
inductive FetchResult where
  | ok (states : List EntityState) : FetchResult
  | httpError (status : Nat) (body : String) : FetchResult
  | exc (msg : String) : FetchResult

/-- What the `/devices` endpoint returns for one request: a successful
JSON payload, a structured JSON error with HTTP code, or an exception
that escaped the view function. -/
inductive ViewOutcome where
  | payload (devices : List DeviceRecord) : ViewOutcome
  | errorResult (error : String) (detail : Option String) (code : Nat) : ViewOutcome
  | raised (msg : String) : ViewOutcome
deriving DecidableEq, Repr

/-- `DEFAULT_LIMIT` from `3drp_show.py`. -/
def DEFAULT_LIMIT : Int := 500

/-- `int(request.args.get("limit", DEFAULT_LIMIT))`: the default is
already an `int`; a present argument must parse or `ValueError` is
raised (before the `try` block). -/
def parseLimitArg (limitArg : Option String) : Option Int :=
  match limitArg with
  | none => some DEFAULT_LIMIT
  | some s => pyParseInt s

/-- `devices_view` from `3drp_show.py`.  The query-string values are
passed in already extracted (`query`/`prefix` defaulted, suffix list
parsed); the platform interaction is the `fetch` argument.  The limit is
parsed **before** the `try` block, so a malformed limit raises; inside
the block an `HTTPError` is turned into a 502 gateway error with the
body truncated to 300 characters, and any other exception into a generic
500 error. -/
def devices_view (fetch : FetchResult) (queryArg preArg : String)
    (limitArg : Option String) (suffixes : List String) : ViewOutcome :=
  let query := pyStrip queryArg
  let pre := pyStrip preArg
  match parseLimitArg limitArg with
  | none => .raised "ValueError"
  | some limit =>
      match fetch with
      | .ok states => .payload (devicesResult states query pre suffixes limit)
      | .httpError status body =>
          .errorResult ("HTTP " ++ toString status) (some (pyTake body 300)) 502
      | .exc msg => .errorResult msg none 500

/-! ## Definitions modelled from the claims' wording (for refinement
comparisons) -/

/-- Modelled from the claim C3 wording: the union of the metric names of
the `data`, `data1` and `textdata` sections. -/
def claimedSensorNames (message_json : Json) : List String :=
  ((sectionDict message_json "data").getD []).map Prod.fst
    ++ ((sectionDict message_json "data1").getD []).map Prod.fst
    ++ ((sectionDict message_json "textdata").getD []).map Prod.fst

/-- Modelled from the claim C5 wording: scan the suffix list in
caller-supplied order, testing `id.endswith("_" + s)` then
`id.endswith(s)` for every candidate (no skipping), first match wins. -/
def claimedMatchSuffix (entity_id : String) : List String → Option String
  | [] => none
  | s :: rest =>
      if pyEndsWith entity_id ("_" ++ s) || pyEndsWith entity_id s then some s
      else claimedMatchSuffix entity_id rest

/-- Modelled from the claim C8 wording: the payload contains a
`Heartbeat` or `MODEL` key, value irrelevant. -/
def claimedLiveness (message_json : Json) : Bool :=
  (jGet message_json "Heartbeat").isSome || (jGet message_json "MODEL").isSome

/-! ## Concrete example inputs used by witnesses and counterexamples -/

/-- A platform that always raises on the state query. -/
def platformDown : String → HAQueryResult := fun _ => .exn

/-- A telemetry message whose only section is the legacy `data1` one. -/
def msgOnlyData1 : Json := .obj [("data1", .obj [("x", .num 5)])]

/-- Scenario-A style message: one numeric metric and a fingerprint. -/
def msgScenarioA : Json :=
  .obj [("data", .obj [("ink", .num 5)]),
        ("textdata", .obj [("FormatVersion", .str "3")])]

/-- A message whose `Heartbeat` key carries a JSON `null`. -/
def msgNullHeartbeat : Json := .obj [("Heartbeat", .null)]

/-- A message with a live `Heartbeat` marker. -/
def msgHeartbeat : Json := .obj [("Heartbeat", .str "1")]

/-- A snapshot entry for suffix `_p25` of device `zp2_abc123`. -/
def stP25 : EntityState :=
  ⟨"sensor.zp2_abc123_p25", "", some "5", some "t1"⟩

/-- Ten matching snapshot entries in scrambled order, devices
`zp2_d0` … `zp2_d9`. -/
def statesTen : List EntityState :=
  [⟨"sensor.zp2_d7_p25", "", some "7", some "t"⟩,
   ⟨"sensor.zp2_d2_p25", "", some "2", some "t"⟩,
   ⟨"sensor.zp2_d9_p25", "", some "9", some "t"⟩,
   ⟨"sensor.zp2_d0_p25", "", some "0", some "t"⟩,
   ⟨"sensor.zp2_d4_p25", "", some "4", some "t"⟩,
   ⟨"sensor.zp2_d6_p25", "", some "6", some "t"⟩,
   ⟨"sensor.zp2_d1_p25", "", some "1", some "t"⟩,
   ⟨"sensor.zp2_d8_p25", "", some "8", some "t"⟩,
   ⟨"sensor.zp2_d3_p25", "", some "3", some "t"⟩,
   ⟨"sensor.zp2_d5_p25", "", some "5", some "t"⟩]

/-- Two snapshot entries for the same device and suffix key: the later
one must overwrite the earlier. -/
def statesDup : List EntityState :=
  [⟨"sensor.zp2_a_p25", "", some "1", some "u1"⟩,
   ⟨"sensor.zp2_a_p25", "", some "2", some "u2"⟩]

/-! ## Helper lemmas -/

theorem strData_append (a b : String) : (a ++ b).data = a.data ++ b.data := rfl

theorem pyEndsWith_iff (s t : String) :
    pyEndsWith s t = true ↔ ∃ l, s.data = l ++ t.data := by
  unfold pyEndsWith
  rw [Bool.and_eq_true]
  constructor
  · rintro ⟨h1, h2⟩
    have h2eq : s.data.drop (s.data.length - t.data.length) = t.data :=
      by exact_mod_cast (beq_iff_eq).mp h2
    refine ⟨s.data.take (s.data.length - t.data.length), ?_⟩
    conv_lhs => rw [← List.take_append_drop (s.data.length - t.data.length) s.data]
    rw [h2eq]
  · rintro ⟨l, hl⟩
    rw [hl]
    constructor
    · simp [List.length_append]
    · rw [List.length_append, Nat.add_sub_cancel, List.drop_left]
      exact beq_self_eq_true t.data

theorem clearPub_injective (device_name device_mac : String) {a b : String}
    (h : clearPub device_name device_mac a = clearPub device_name device_mac b) : a = b := by
  have ht : (clearPub device_name device_mac a).topic
      = (clearPub device_name device_mac b).topic := by rw [h]
  simp only [clearPub, discoveryTopic] at ht
  have hd := congrArg String.data ht
  simp only [strData_append] at hd
  exact String.ext (List.append_cancel_left (List.append_cancel_right hd))

theorem lexLe_total : ∀ a b : List Char, lexLe a b = true ∨ lexLe b a = true := by
  intro a
  induction a with
  | nil => intro b; left; rfl
  | cons x xs ih =>
    intro b
    cases b with
    | nil => right; rfl
    | cons y ys =>
      by_cases h1 : x.val.toNat < y.val.toNat
      · left; simp [lexLe, h1]
      · by_cases h2 : y.val.toNat < x.val.toNat
        · right; simp [lexLe, h1, h2]
        · have h3 : ¬ y.val.toNat < x.val.toNat := h2
          rcases ih ys with h | h
          · left; simp [lexLe, h1, h2, h]
          · right; simp [lexLe, h1, h3, h]

theorem lexLe_trans : ∀ a b c : List Char,
    lexLe a b = true → lexLe b c = true → lexLe a c = true := by
  intro a
  induction a with
  | nil => intro b c _ _; rfl
  | cons x xs ih =>
    intro b c hab hbc
    cases b with
    | nil => simp [lexLe] at hab
    | cons y ys =>
      cases c with
      | nil => simp [lexLe] at hbc
      | cons z zs =>
        simp only [lexLe] at hab hbc ⊢
        split_ifs at hab hbc ⊢ with p1 p2 p3 p4 p5 p6 <;>
          first
          | rfl
          | omega
          | simp at hab
          | simp at hbc
          | exact ih ys zs hab hbc

theorem mem_orderedInsertDev {x : DeviceRecord} :
    ∀ {l : List DeviceRecord} {z : DeviceRecord},
      z ∈ orderedInsertDev x l → z = x ∨ z ∈ l := by
  intro l
  induction l with
  | nil =>
    intro z hz
    simp only [orderedInsertDev, List.mem_singleton] at hz
    exact Or.inl hz
  | cons y ys ih =>
    intro z hz
    unfold orderedInsertDev at hz
    by_cases h : lexLe x.device_id.data y.device_id.data = true
    · rw [if_pos h] at hz
      rcases List.mem_cons.mp hz with h1 | h1
      · exact Or.inl h1
      · exact Or.inr h1
    · rw [if_neg h] at hz
      rcases List.mem_cons.mp hz with h1 | h1
      · exact Or.inr (h1 ▸ List.mem_cons_self y ys)
      · rcases ih h1 with h2 | h2
        · exact Or.inl h2
        · exact Or.inr (List.mem_cons_of_mem y h2)

theorem sorted_orderedInsertDev (x : DeviceRecord) :
    ∀ l : List DeviceRecord, List.Sorted devLe l →
      List.Sorted devLe (orderedInsertDev x l) := by
  intro l
  induction l with
  | nil => intro _; simp [orderedInsertDev, List.Sorted]
  | cons y ys ih =>
    intro hs
    rw [List.sorted_cons] at hs
    unfold orderedInsertDev
    by_cases h : lexLe x.device_id.data y.device_id.data = true
    · rw [if_pos h]
      rw [List.sorted_cons]
      refine ⟨?_, List.sorted_cons.mpr hs⟩
      intro b hb
      rcases List.mem_cons.mp hb with h1 | h1
      · exact h1 ▸ h
      · exact lexLe_trans _ _ _ h (hs.1 b h1)
    · rw [if_neg h]
      rw [List.sorted_cons]
      refine ⟨?_, ih hs.2⟩
      intro b hb
      rcases mem_orderedInsertDev hb with h1 | h1
      · subst h1
        rcases lexLe_total b.device_id.data y.device_id.data with h2 | h2
        · exact absurd h2 h
        · exact h2
      · exact hs.1 b h1

theorem sorted_sortDevices : ∀ l : List DeviceRecord, List.Sorted devLe (sortDevices l)
  | [] => by simp [sortDevices, List.Sorted]
  | x :: l => sorted_orderedInsertDev x _ (sorted_sortDevices l)

theorem truncateDevices_sorted {l : List DeviceRecord} (limit : Int)
    (h : List.Sorted devLe l) : List.Sorted devLe (truncateDevices l limit) := by
  unfold truncateDevices pyListTake
  split
  · split
    · exact List.Pairwise.sublist (List.take_sublist _ _) h
    · exact List.Pairwise.sublist (List.take_sublist _ _) h
  · exact h

theorem truncateDevices_length (l : List DeviceRecord) (limit : Int) (h : 0 < limit) :
    (truncateDevices l limit).length ≤ limit.toNat := by
  unfold truncateDevices pyListTake
  split
  · rw [if_neg (by omega : ¬ limit < 0)]
    simp only [List.length_take]
    omega
  · rename_i hc
    rw [not_and_or] at hc
    rcases hc with hc | hc
    · exact absurd (by omega : limit ≠ 0) hc
    · push_neg at hc
      omega

theorem on_message_rest_control_pubs (platform : String → HAQueryResult)
    (topic : String) (message_json : Json) (pubs : List Publish) :
    (on_message_rest platform topic message_json pubs).control_pubs = pubs := by
  unfold on_message_rest
  dsimp only
  split
  · rfl
  · split
    · split
      · rfl
      · split
        · rfl
        · split
          · rfl
          · split <;> rfl
    · rfl

theorem match_suffix_nil (entity_id : String) : _match_suffix entity_id [] = none := rfl

theorem match_suffix_shape (entity_id : String) :
    ∀ (sfx : List String) (s t : String),
      _match_suffix entity_id sfx = some (s, t) →
      s ≠ "" ∧ (t = "_" ++ s ∨ t = s) := by
  intro sfx
  induction sfx with
  | nil => intro s t h; simp [_match_suffix] at h
  | cons c rest ih =>
    intro s t h
    unfold _match_suffix at h
    by_cases hc : c = ""
    · rw [if_pos hc] at h
      exact ih s t h
    · rw [if_neg hc] at h
      by_cases h1 : pyEndsWith entity_id ("_" ++ c) = true
      · rw [if_pos h1] at h
        injection h with h
        injection h with hs ht
        subst hs; subst ht
        exact ⟨hc, Or.inl rfl⟩
      · rw [if_neg h1] at h
        by_cases h2 : pyEndsWith entity_id c = true
        · rw [if_pos h2] at h
          injection h with h
          injection h with hs ht
          subst hs; subst ht
          exact ⟨hc, Or.inr rfl⟩
        · rw [if_neg h2] at h
          exact ih s t h

theorem match_suffix_trailing_ne (entity_id : String) (sfx : List String) (s t : String)
    (h : _match_suffix entity_id sfx = some (s, t)) : t ≠ "" := by
  obtain ⟨hs, hts⟩ := match_suffix_shape entity_id sfx s t h
  rcases hts with ht | ht
  · subst ht
    intro he
    have := congrArg String.data he
    rw [strData_append] at this
    simp at this
  · subst ht
    exact hs

theorem clear_and_rediscover_eq (ADDON_VERSION device_name device_mac : String)
    (msg : Json) (ds ts : List (String × Json))
    (hd : sectionDict msg "data" = some ds) (ht : sectionDict msg "textdata" = some ts) :
    clear_and_rediscover ADDON_VERSION device_name device_mac msg =
      (ds.map Prod.fst ++ ts.map Prod.fst).map (clearPub device_name device_mac)
        ++ (discovery_configs_of ADDON_VERSION device_name device_mac ds ts).map
            (annPub device_name device_mac)
        ++ [onlineBeacon device_name device_mac] := by
  unfold clear_and_rediscover
  rw [hd, ht]
  rfl

theorem payload_pos_lt (A B : List Publish) (i j : Nat) (p q : Publish)
    (hA : ∀ r ∈ A, r.payload = Payload.empty)
    (hB : ∀ r ∈ B, r.payload ≠ Payload.empty)
    (hip : (A ++ B)[i]? = some p) (hp : p.payload = Payload.empty)
    (hjq : (A ++ B)[j]? = some q) (hq : q.payload ≠ Payload.empty) :
    i < j := by
  have hiA : i < A.length := by
    by_contra hc
    push_neg at hc
    rw [List.getElem?_append_right hc] at hip
    exact hB p (List.getElem?_mem hip) hp
  have hjA : A.length ≤ j := by
    by_contra hc
    push_neg at hc
    rw [List.getElem?_append, if_pos hc] at hjq
    exact hq (hA q (List.getElem?_mem hjq))
  omega

theorem deviceStep_empty_suffixes (query pre : String)
    (dm : List (String × DeviceRecord)) (s : EntityState) :
    deviceStep query pre [] dm s = dm := by
  unfold deviceStep
  dsimp only
  split
  · rfl
  · split
    · rfl
    · rfl

theorem foldl_deviceStep_empty_suffixes (query pre : String) :
    ∀ (states : List EntityState) (dm : List (String × DeviceRecord)),
      states.foldl (deviceStep query pre []) dm = dm := by
  intro states
  induction states with
  | nil => intro dm; rfl
  | cons s rest ih =>
    intro dm
    rw [List.foldl_cons, deviceStep_empty_suffixes, ih]

/-! ## Claim theorems -/

/-- Claim C1: for every device identity and fingerprint string, the
registration check returns current (`true`) exactly when the platform
query for `sensor.<device_name>_<device_mac>_FormatVersion` succeeds with
HTTP 200 and the entity's textual state value equals the fingerprint; in
every other case (entity absent, non-success status, differing value, or
a raised network/timeout exception) it returns stale (`false`). -/
theorem claim_C1 (platform : String → HAQueryResult)
    (device_name device_mac format_version : String) :
    is_device_registered platform device_name device_mac format_version = true ↔
      ∃ st, platform (fvEntityId device_name device_mac) = .resp 200 st
        ∧ pyStrOpt st = format_version := by
  unfold is_device_registered
  cases hp : platform (fvEntityId device_name device_mac) with
  | exn =>
    simp only [Bool.false_eq_true, false_iff]
    rintro ⟨st, hst, _⟩
    exact absurd hst (by simp)
  | resp status st =>
    by_cases hs : status = 200
    · subst hs
      simp only [ne_eq, not_true_eq_false, if_false, beq_iff_eq]
      constructor
      · intro h
        exact ⟨st, rfl, h⟩
      · rintro ⟨st2, hst2, hval⟩
        injection hst2 with _ hst2
        exact hst2 ▸ hval
    · dsimp only
      rw [if_pos hs]
      simp only [Bool.false_eq_true, false_iff]
      rintro ⟨st2, hst2, _⟩
      injection hst2 with h200 _
      exact hs h200

/-- Claim C4 (counterexample): an entity that passes the prefix filter
(and the empty keyword filter) and has a perfectly valid device label is
nonetheless dropped when the suffix list is empty — the aggregation
returns no device at all, contradicting "every such entity is included". -/
theorem claim_C4_cex :
    pyStartsWith stP25.entity_id "sensor.zp2_" = true ∧
    devicesResult [stP25] "" "sensor.zp2_" [] 500 = [] := by
  constructor
  · decide
  · decide

/-- Claim C4 (amended): when the suffix list is empty, `_match_suffix`
matches nothing, so every entity is rejected and the aggregation output
is empty (for any snapshot, keyword, prefix and limit). -/
theorem claim_C4 (states : List EntityState) (query pre : String) (limit : Int) :
    devicesResult states query pre [] limit = [] := by
  unfold devicesResult
  rw [foldl_deviceStep_empty_suffixes]
  simp only [List.map_nil]
  unfold sortDevices truncateDevices pyListTake
  split
  · split <;> exact List.take_nil
  · rfl

/-- Claim C5 (counterexample): the claim describes the scan as testing
`endswith("_" + s)` then `endswith(s)` for *every* candidate with the
first match winning; on the suffix list `[""]` that procedure matches
(every string ends with `""`), but the code skips empty candidates and
reports no match. -/
theorem claim_C5_cex :
    _match_suffix "abc" [""] = none ∧ claimedMatchSuffix "abc" [""] = some "" := by
  constructor
  · decide
  · decide

/-- Claim C5 (amended): for every entity id and suffix list, the matched
suffix equals the claim's first-match scan run over the list with the
empty-string candidates discarded: the remaining candidates are tested in
caller-supplied order with `endswith("_" + s)` then `endswith(s)`, and
the first candidate that matches wins (not the longest). -/
theorem claim_C5 (entity_id : String) (suffixes : List String) :
    Option.map Prod.fst (_match_suffix entity_id suffixes)
      = claimedMatchSuffix entity_id (suffixes.filter (fun s => s ≠ "")) := by
  induction suffixes with
  | nil => rfl
  | cons s rest ih =>
    unfold _match_suffix
    by_cases hs : s = ""
    · subst hs
      rw [if_pos rfl]
      have hf : List.filter (fun x => x ≠ "") ("" :: rest)
          = List.filter (fun x => x ≠ "") rest := by
        simp [List.filter_cons]
      rw [hf]
      exact ih
    · rw [if_neg hs]
      have hf : List.filter (fun x => x ≠ "") (s :: rest)
          = s :: List.filter (fun x => x ≠ "") rest := by
        simp [List.filter_cons, hs]
      rw [hf]
      unfold claimedMatchSuffix
      by_cases e1 : pyEndsWith entity_id ("_" ++ s) = true
      · simp [e1]
      · by_cases e2 : pyEndsWith entity_id s = true
        · simp [e1, e2]
        · simp [e1, e2, ih]

/-- Claim C5 (witness): on the mixed suffix list `["", "_p25", "_p1"]`
the code scan agrees with the claimed first-match scan over the
empty-free residue, and an entity id ending in `_p1` matches the token
`_p1` (first structurally-matching entry, not the longest). -/
theorem claim_C5_witness :
    Option.map Prod.fst (_match_suffix "sensor.x_p1" ["", "_p25", "_p1"])
      = claimedMatchSuffix "sensor.x_p1" (["", "_p25", "_p1"].filter (fun s => s ≠ "")) ∧
    (["", "_p25", "_p1"].filter (fun s => s ≠ "")) = ["_p25", "_p1"] ∧
    _match_suffix "sensor.x_p1" ["", "_p25", "_p1"] = some ("_p1", "_p1") ∧
    _match_suffix "sensor.x_p1" ["_p25", "_p1"] = some ("_p1", "_p1") :=
  ⟨claim_C5 "sensor.x_p1" ["", "_p25", "_p1"], by decide, by decide, by decide⟩

/-- Claim C10: a JSON-decodable message on a topic with more than three
segments produces no control publish and no discovery dispatch: the
three-way unpack in the control responder raises, the message-level
handler absorbs the error, and processing stops before the registration
decision is ever consulted. -/
theorem claim_C10 (platform : String → HAQueryResult) (topic : String) (msg : Json)
    (h : 3 < (pySplit topic '/').length) :
    on_message platform topic (some msg) =
      ⟨[], false, false, true⟩ := by
  unfold on_message check_and_respond_control
  dsimp only
  rw [if_neg (by omega : ¬ (pySplit topic '/').length < 3),
    if_neg (by omega : ¬ (pySplit topic '/').length = 3)]

/-- Claim C10 (witness): concrete four-segment topic. -/
theorem claim_C10_witness :
    3 < (pySplit "a/b/data/x" '/').length ∧
    on_message platformDown "a/b/data/x" (some msgHeartbeat) = ⟨[], false, false, true⟩ :=
  ⟨by decide, claim_C10 platformDown "a/b/data/x" msgHeartbeat (by decide)⟩

/-- Claim C3 (counterexample): a message whose only metric section is the
legacy `data1` one.  The claim's union of `data`/`data1`/`textdata` names
is `["x"]`, but the cycle collects nothing — `data1` is never read — and
the emitted trace contains no clear or announce at all, only the beacon. -/
theorem claim_C3_cex :
    sensors_to_register msgOnlyData1 = [] ∧
    claimedSensorNames msgOnlyData1 = ["x"] ∧
    clear_and_rediscover "AV" "dev" "mac" msgOnlyData1 = [onlineBeacon "dev" "mac"] :=
  ⟨rfl, rfl, rfl⟩

/-- Claim C3 (amended): the sensor-name set that one discovery cycle
clears (and re-announces) is collected from the `data` and `textdata`
sections only — a name receives a clear-publish iff it is one of their
metric names; the `data1` section plays no role. -/
theorem claim_C3 (ADDON_VERSION device_name device_mac : String) (msg : Json)
    (ds ts : List (String × Json))
    (hd : sectionDict msg "data" = some ds) (ht : sectionDict msg "textdata" = some ts) :
    ∀ s, clearPub device_name device_mac s
        ∈ clear_and_rediscover ADDON_VERSION device_name device_mac msg ↔
      s ∈ ds.map Prod.fst ++ ts.map Prod.fst := by
  intro s
  rw [clear_and_rediscover_eq ADDON_VERSION device_name device_mac msg ds ts hd ht]
  constructor
  · intro hmem
    rcases List.mem_append.mp hmem with hmem | hmem
    · rcases List.mem_append.mp hmem with hmem | hmem
      · obtain ⟨a, ha, he⟩ := List.mem_map.mp hmem
        exact (clearPub_injective device_name device_mac he) ▸ ha
      · obtain ⟨cfg, _, he⟩ := List.mem_map.mp hmem
        exact absurd (congrArg Publish.payload he) (by simp [annPub, clearPub])
    · have he := List.mem_singleton.mp hmem
      exact absurd (congrArg Publish.payload he) (by simp [onlineBeacon, clearPub])
  · intro hs
    exact List.mem_append.mpr (Or.inl (List.mem_append.mpr
      (Or.inl (List.mem_map_of_mem _ hs))))

/-- Claim C3 (witness for the amended claim): Scenario-A message. -/
theorem claim_C3_witness :
    sectionDict msgScenarioA "data" = some [("ink", Json.num 5)] ∧
    sectionDict msgScenarioA "textdata" = some [("FormatVersion", Json.str "3")] ∧
    ∀ s, clearPub "printerA" "AA11" s ∈ clear_and_rediscover "AV" "printerA" "AA11" msgScenarioA ↔
      s ∈ ([("ink", Json.num 5)].map Prod.fst ++ [("FormatVersion", Json.str "3")].map Prod.fst) :=
  ⟨rfl, rfl, claim_C3 "AV" "printerA" "AA11" msgScenarioA _ _ rfl rfl⟩

/-- Claim C6: for every matched entity, the device label is obtained by
stripping the domain segment, then stripping the matched trailing token
(the code's `base[:-len(trailing)]` slice removes exactly the trailing
token whenever it is a suffix of the domain-stripped id), then trimming
the trailing underscores. -/
theorem claim_C6 (eid : String) (suffixes : List String) (s t : String)
    (hm : _match_suffix eid suffixes = some (s, t))
    (hsuf : pyEndsWith (stripDomain eid) t = true) :
    ∃ b : String, stripDomain eid = b ++ t
      ∧ deviceLabelOf eid t = pyRstripUnderscore b := by
  obtain ⟨l, hl⟩ := (pyEndsWith_iff _ _).mp hsuf
  have htne : t ≠ "" := match_suffix_trailing_ne eid suffixes s t hm
  refine ⟨⟨l⟩, ?_, ?_⟩
  · exact String.ext (by rw [strData_append]; exact hl)
  · unfold deviceLabelOf
    dsimp only
    rw [if_pos htne]
    have harg : pyDropRight (stripDomain eid) t.data.length = (⟨l⟩ : String) := by
      apply String.ext
      show (stripDomain eid).data.take ((stripDomain eid).data.length - t.data.length) = l
      rw [hl, List.length_append, Nat.add_sub_cancel, List.take_left]
    rw [harg]

/-- Claim C6 (witness): `sensor.zp2_abc123_p25` with matched suffix `p25`
(trailing token `_p25`) yields device label `zp2_abc123`. -/
theorem claim_C6_witness :
    _match_suffix "sensor.zp2_abc123_p25" ["p25"] = some ("p25", "_p25") ∧
    pyEndsWith (stripDomain "sensor.zp2_abc123_p25") "_p25" = true ∧
    (∃ b : String, stripDomain "sensor.zp2_abc123_p25" = b ++ "_p25"
      ∧ deviceLabelOf "sensor.zp2_abc123_p25" "_p25" = pyRstripUnderscore b) ∧
    deviceLabelOf "sensor.zp2_abc123_p25" "_p25" = "zp2_abc123" :=
  ⟨by decide, by decide,
   claim_C6 "sensor.zp2_abc123_p25" ["p25"] "p25" "_p25" (by decide) (by decide),
   by decide⟩

/-- Claim C8 (counterexample): the claim fails in both directions it
overstates.  A live `Heartbeat` on a four-segment topic (claim: at least
three segments suffice) produces no control publish, because the
three-way unpack raises; and a `Heartbeat` key whose value is JSON null
(claim: value irrelevant) on a three-segment topic also produces no
control publish, because the code tests `.get(k) is not None`. -/
theorem claim_C8_cex :
    (3 ≤ (pySplit "a/b/data/x" '/').length ∧ claimedLiveness msgHeartbeat = true ∧
      (on_message platformDown "a/b/data/x" (some msgHeartbeat)).control_pubs = []) ∧
    ((pySplit "a/b/data" '/').length = 3 ∧ claimedLiveness msgNullHeartbeat = true ∧
      (on_message platformDown "a/b/data" (some msgNullHeartbeat)).control_pubs = []) := by
  constructor
  · exact ⟨by decide, by decide, rfl⟩
  · exact ⟨by decide, by decide, rfl⟩

/-- Claim C8 (amended): for every JSON-decodable message, the fixed
command payload is published to `<device>/<mac>/control` exactly when the
topic has exactly three segments and the payload carries a `Heartbeat` or
`MODEL` key with a non-null value; and the control publish is completely
independent of the registration/fingerprint decision (the same publishes
happen under every platform response). -/
theorem claim_C8 (platform : String → HAQueryResult) (topic : String) (msg : Json) :
    ((on_message platform topic (some msg)).control_pubs =
      if (pySplit topic '/').length = 3 ∧ has_required_payload msg = true
      then [controlPub ((pySplit topic '/').getD 0 "") ((pySplit topic '/').getD 1 "")]
      else []) ∧
    ∀ platform2 : String → HAQueryResult,
      (on_message platform2 topic (some msg)).control_pubs
        = (on_message platform topic (some msg)).control_pubs := by
  have main : ∀ p : String → HAQueryResult,
      (on_message p topic (some msg)).control_pubs =
        if (pySplit topic '/').length = 3 ∧ has_required_payload msg = true
        then [controlPub ((pySplit topic '/').getD 0 "") ((pySplit topic '/').getD 1 "")]
        else [] := by
    intro p
    unfold on_message check_and_respond_control
    dsimp only
    by_cases h1 : (pySplit topic '/').length < 3
    · rw [if_pos h1]
      dsimp only
      rw [on_message_rest_control_pubs]
      rw [if_neg (by rintro ⟨he, _⟩; omega)]
    · rw [if_neg h1]
      by_cases h2 : (pySplit topic '/').length = 3
      · rw [if_pos h2]
        by_cases h3 : has_required_payload msg = true
        · rw [if_pos h3]
          dsimp only
          rw [on_message_rest_control_pubs]
          rw [if_pos ⟨h2, h3⟩]
        · rw [if_neg h3]
          dsimp only
          rw [on_message_rest_control_pubs]
          rw [if_neg (fun hc => h3 hc.2)]
      · rw [if_neg h2]
        dsimp only
        rw [if_neg (fun hc => h2 hc.1)]
  exact ⟨main platform, fun p2 => (main p2).trans (main platform).symm⟩

/-- Claim C9 (counterexample): an unreachable platform (a connection
error, which is not an `HTTPError`) is answered by the *generic* 500
error carrying the raw exception text and no truncated diagnostic — not
by the gateway-error result the claim promises for "platform unreachable";
and a request whose `limit` parameter does not parse raises a raw
`ValueError` before the handler, escaping the boundary. -/
theorem claim_C9_cex :
    devices_view (.exc "ConnectionError: unreachable") "" "sensor.zp2_" none ["_p25"]
      = .errorResult "ConnectionError: unreachable" none 500 ∧
    devices_view (.ok []) "" "sensor.zp2_" (some "ten") ["_p25"] = .raised "ValueError" :=
  ⟨rfl, rfl⟩

/-- Claim C9 (amended): provided the `limit` query parameter parses as an
integer (it is converted before the `try` block), the endpoint never lets
an exception escape: a non-success upstream status yields the gateway
error (HTTP 502) with the body truncated to at most 300 characters, and
any other fetch failure — including an unreachable platform — yields the
generic structured error (HTTP 500). -/
theorem claim_C9 (fetch : FetchResult) (queryArg preArg : String)
    (limitArg : Option String) (suffixes : List String)
    (h : parseLimitArg limitArg ≠ none) :
    (∀ msg2, devices_view fetch queryArg preArg limitArg suffixes ≠ .raised msg2) ∧
    (∀ status body, fetch = .httpError status body →
      devices_view fetch queryArg preArg limitArg suffixes
        = .errorResult ("HTTP " ++ toString status) (some (pyTake body 300)) 502
      ∧ (pyTake body 300).data.length ≤ 300) ∧
    (∀ emsg, fetch = .exc emsg →
      devices_view fetch queryArg preArg limitArg suffixes = .errorResult emsg none 500) := by
  obtain ⟨lim, hl⟩ := Option.ne_none_iff_exists.mp h
  unfold devices_view
  dsimp only
  rw [← hl]
  refine ⟨?_, ?_, ?_⟩
  · intro msg2
    cases fetch <;> simp
  · rintro status body rfl
    exact ⟨rfl, by simp [pyTake, List.length_take]⟩
  · rintro emsg rfl
    rfl

/-- Claim C9 (witness): concrete gateway-error and generic-error cases
with the default limit. -/
theorem claim_C9_witness :
    parseLimitArg none ≠ none ∧
    devices_view (.httpError 503 "boom") "" "sensor.zp2_" none ["_p25"]
      = .errorResult "HTTP 503" (some "boom") 502 ∧
    devices_view (.exc "ConnectionError") "" "sensor.zp2_" none ["_p25"]
      = .errorResult "ConnectionError" none 500 := by
  refine ⟨by decide, ?_, ?_⟩
  · have h := ((claim_C9 (.httpError 503 "boom") "" "sensor.zp2_" none ["_p25"]
      (by decide)).2.1 503 "boom" rfl).1
    exact h.trans (by rfl)
  · exact (claim_C9 (.exc "ConnectionError") "" "sensor.zp2_" none ["_p25"]
      (by decide)).2.2 "ConnectionError" rfl

/-- Claim C2: within one discovery cycle, the emitted sequence is the
clear-publishes (empty retained payloads on the discovery-config topics)
for every collected sensor name, then the announce-publishes (retained
configs) for every collected sensor name, then exactly one non-retained
online beacon on the device status topic; in particular a clear-publish
for a sensor name strictly precedes every announce-publish (position of a
clear is below the position of any announce). -/
theorem claim_C2 (ADDON_VERSION device_name device_mac : String) (msg : Json)
    (ds ts : List (String × Json))
    (hd : sectionDict msg "data" = some ds) (ht : sectionDict msg "textdata" = some ts) :
    clear_and_rediscover ADDON_VERSION device_name device_mac msg =
      (ds.map Prod.fst ++ ts.map Prod.fst).map (clearPub device_name device_mac)
        ++ (discovery_configs_of ADDON_VERSION device_name device_mac ds ts).map
            (annPub device_name device_mac)
        ++ [onlineBeacon device_name device_mac]
    ∧ (∀ s, s ∈ ds.map Prod.fst ++ ts.map Prod.fst →
        clearPub device_name device_mac s
            ∈ clear_and_rediscover ADDON_VERSION device_name device_mac msg
          ∧ ∃ cfg : DiscoveryConfig, cfg.name = s
              ∧ annPub device_name device_mac cfg
                  ∈ clear_and_rediscover ADDON_VERSION device_name device_mac msg)
    ∧ List.countP (fun p => p.payload == Payload.online)
        (clear_and_rediscover ADDON_VERSION device_name device_mac msg) = 1
    ∧ (clear_and_rediscover ADDON_VERSION device_name device_mac msg).getLast?
        = some (onlineBeacon device_name device_mac)
    ∧ (∀ (i j : Nat) (s : String) (cfg : DiscoveryConfig) (p q : Publish),
        (clear_and_rediscover ADDON_VERSION device_name device_mac msg)[i]? = some p →
        p = clearPub device_name device_mac s →
        (clear_and_rediscover ADDON_VERSION device_name device_mac msg)[j]? = some q →
        q.payload = Payload.config cfg → cfg.name = s →
        i < j) := by
  have htr := clear_and_rediscover_eq ADDON_VERSION device_name device_mac msg ds ts hd ht
  refine ⟨htr, ?_, ?_, ?_, ?_⟩
  · intro s hs
    constructor
    · rw [htr]
      exact List.mem_append_left _ (List.mem_append_left _ (List.mem_map_of_mem _ hs))
    · rcases List.mem_append.mp hs with hsd | hst
      · obtain ⟨pr, hpr, hprs⟩ := List.mem_map.mp hsd
        refine ⟨generate_mqtt_discovery_config ADDON_VERSION device_name device_mac "data" pr.1,
          hprs, ?_⟩
        rw [htr]
        refine List.mem_append_left _ (List.mem_append_right _ (List.mem_map_of_mem _ ?_))
        exact List.mem_append_left _ (List.mem_map_of_mem _ hpr)
      · obtain ⟨pr, hpr, hprs⟩ := List.mem_map.mp hst
        refine ⟨generate_mqtt_discovery_textconfig ADDON_VERSION device_name device_mac
          "textdata" pr.1, hprs, ?_⟩
        rw [htr]
        refine List.mem_append_left _ (List.mem_append_right _ (List.mem_map_of_mem _ ?_))
        exact List.mem_append_right _ (List.mem_map_of_mem _ hpr)
  · rw [htr]
    rw [List.countP_append, List.countP_append, List.countP_map, List.countP_map]
    have hc1 : List.countP ((fun p => p.payload == Payload.online)
        ∘ clearPub device_name device_mac) (ds.map Prod.fst ++ ts.map Prod.fst) = 0 := by
      apply List.countP_eq_zero.mpr
      intro a _
      simp [Function.comp, clearPub]
    have hc2 : List.countP ((fun p => p.payload == Payload.online)
        ∘ annPub device_name device_mac)
        (discovery_configs_of ADDON_VERSION device_name device_mac ds ts) = 0 := by
      apply List.countP_eq_zero.mpr
      intro a _
      simp [Function.comp, annPub]
    rw [hc1, hc2]
    simp [onlineBeacon]
  · rw [htr]
    exact List.getLast?_concat _
  · intro i j s cfg p q hip hps hjq hqc hcs
    rw [htr, List.append_assoc] at hip hjq
    refine payload_pos_lt
      ((ds.map Prod.fst ++ ts.map Prod.fst).map (clearPub device_name device_mac))
      ((discovery_configs_of ADDON_VERSION device_name device_mac ds ts).map
          (annPub device_name device_mac) ++ [onlineBeacon device_name device_mac])
      i j p q ?_ ?_ hip ?_ hjq ?_
    · intro r hr
      obtain ⟨a, _, ha⟩ := List.mem_map.mp hr
      rw [← ha]
      rfl
    · intro r hr
      rcases List.mem_append.mp hr with hr | hr
      · obtain ⟨a, _, ha⟩ := List.mem_map.mp hr
        rw [← ha]
        simp [annPub]
      · have := List.mem_singleton.mp hr
        rw [this]
        simp [onlineBeacon]
    · rw [hps]
      rfl
    · rw [hqc]
      simp

/-- Claim C2 (witness): the Scenario-A message, one numeric metric `ink`
and the textual `FormatVersion`. -/
theorem claim_C2_witness :
    sectionDict msgScenarioA "data" = some [("ink", Json.num 5)] ∧
    sectionDict msgScenarioA "textdata" = some [("FormatVersion", Json.str "3")] ∧
    (clear_and_rediscover "AV" "printerA" "AA11" msgScenarioA =
      ([("ink", Json.num 5)].map Prod.fst
          ++ [("FormatVersion", Json.str "3")].map Prod.fst).map (clearPub "printerA" "AA11")
        ++ (discovery_configs_of "AV" "printerA" "AA11"
              [("ink", Json.num 5)] [("FormatVersion", Json.str "3")]).map
            (annPub "printerA" "AA11")
        ++ [onlineBeacon "printerA" "AA11"]
    ∧ (∀ s, s ∈ [("ink", Json.num 5)].map Prod.fst
          ++ [("FormatVersion", Json.str "3")].map Prod.fst →
        clearPub "printerA" "AA11" s
            ∈ clear_and_rediscover "AV" "printerA" "AA11" msgScenarioA
          ∧ ∃ cfg : DiscoveryConfig, cfg.name = s
              ∧ annPub "printerA" "AA11" cfg
                  ∈ clear_and_rediscover "AV" "printerA" "AA11" msgScenarioA)
    ∧ List.countP (fun p => p.payload == Payload.online)
        (clear_and_rediscover "AV" "printerA" "AA11" msgScenarioA) = 1
    ∧ (clear_and_rediscover "AV" "printerA" "AA11" msgScenarioA).getLast?
        = some (onlineBeacon "printerA" "AA11")
    ∧ (∀ (i j : Nat) (s : String) (cfg : DiscoveryConfig) (p q : Publish),
        (clear_and_rediscover "AV" "printerA" "AA11" msgScenarioA)[i]? = some p →
        p = clearPub "printerA" "AA11" s →
        (clear_and_rediscover "AV" "printerA" "AA11" msgScenarioA)[j]? = some q →
        q.payload = Payload.config cfg → cfg.name = s →
        i < j)) :=
  ⟨rfl, rfl, claim_C2 "AV" "printerA" "AA11" msgScenarioA _ _ rfl rfl⟩

/-- Claim C7: for every positive limit the aggregation output is sorted
by device label in ascending lexicographic order and holds at most
`limit` device records (the cap bounds device count, not metrics); with
the ten-device snapshot and limit 3 exactly the three lexicographically
smallest labels survive; and within one device a later snapshot entry
claiming an already-present suffix key overwrites the earlier one. -/
theorem claim_C7 (states : List EntityState) (queryArg preArg : String)
    (suffixes : List String) (limit : Int) (h : 0 < limit) :
    List.Sorted devLe (devicesResult states queryArg preArg suffixes limit) ∧
    (devicesResult states queryArg preArg suffixes limit).length ≤ limit.toNat ∧
    (devicesResult statesTen "" "sensor.zp2_" ["_p25"] 3).map DeviceRecord.device_id
      = ["zp2_d0", "zp2_d1", "zp2_d2"] ∧
    devicesResult statesDup "" "sensor.zp2_" ["_p25"] 500
      = [⟨"zp2_a", [("_p25", ⟨some "2", some "u2"⟩)]⟩] := by
  refine ⟨?_, ?_, by decide, by decide⟩
  · exact truncateDevices_sorted limit (sorted_sortDevices _)
  · exact truncateDevices_length _ limit h

/-- Claim C7 (witness): instantiated at the ten-device snapshot with
limit 3. -/
theorem claim_C7_witness :
    (0 : Int) < 3 ∧
    (List.Sorted devLe (devicesResult statesTen "" "sensor.zp2_" ["_p25"] 3) ∧
    (devicesResult statesTen "" "sensor.zp2_" ["_p25"] 3).length ≤ (3 : Int).toNat ∧
    (devicesResult statesTen "" "sensor.zp2_" ["_p25"] 3).map DeviceRecord.device_id
      = ["zp2_d0", "zp2_d1", "zp2_d2"] ∧
    devicesResult statesDup "" "sensor.zp2_" ["_p25"] 500
      = [⟨"zp2_a", [("_p25", ⟨some "2", some "u2"⟩)]⟩]) :=
  ⟨by decide, claim_C7 statesTen "" "sensor.zp2_" ["_p25"] 3 (by decide)⟩
